import Mathlib

/-!
Verification development for the multistage delta-v calculator
(src/MultistageDeltaV.py). The core of the program is embedded shallowly:

* raw user input fields are values that either parse to a rational number or
  fail with the entered text (abstracting Python float parsing);
* `validateStages` / `validate` embed the validation loop of
  `calculate_delta_v` (lines 111-125);
* `stageDvs` / `totalDv` embed the computation loop (lines 128-138), with
  real-number arithmetic and `Real.log` idealizing double precision;
* `AppState`, `calculate_delta_v`, `plot_stages` embed the state held on the
  object (`self.stages`, `self.stage_dvs`, the result label text);
* `removeFirst`, `renumberFrom`, `remove_stage` embed `remove_stage` and
  `update_stage_numbers` (lines 86-101).
-/

namespace MSDV

/-- A raw input field: either text that parses to a number, or text that does
not. This abstracts Python `float(...)`, which either returns a value or
raises `ValueError: could not convert string to float: ...` carrying the
entered text. Parsed values are idealized as rationals. -/
inductive RawField where
  | good (x : ℚ)
  | bad (text : String)
deriving DecidableEq

/-- One row of raw UI entries for a stage: wet mass, dry mass, specific
impulse, as entered (source lines 59-72, read at lines 113-115). -/
structure RawStage where
  wet : RawField
  dry : RawField
  isp : RawField
deriving DecidableEq

/-- A validated stage: the tuple `(wet, dry, isp)` appended to `stages_data`
at source line 122. -/
structure Stage where
  wet : ℚ
  dry : ℚ
  isp : ℚ
deriving DecidableEq, Inhabited

/-- Validation errors of `calculate_delta_v`. In the source all four are
`ValueError`s distinguished by message; the constructors record the data each
message carries (source lines 113-125). -/
inductive VError where
  | parseError (text : String)
  | invalidStageWet (index : ℕ)
  | invalidStageIsp (index : ℕ)
  | emptySequenceError
deriving DecidableEq

/-- Message of each error, as formatted in the source. For `parseError` the
Python message quotes the offending text; the quotes are elided here. -/
def errorMessage : VError → String
  | .parseError text => "could not convert string to float: " ++ text
  | .invalidStageWet i => "Wet mass <= Dry mass in Stage " ++ toString i
  | .invalidStageIsp i => "Invalid Isp in Stage " ++ toString i
  | .emptySequenceError => "No stages added"

/-- Embeds `float(stage[...].get())`: returns the parsed number or raises. -/
def parseField : RawField → Except VError ℚ
  | .good x => .ok x
  | .bad s => .error (.parseError s)

/-- Embeds the validation loop (source lines 112-122): for each stage, parse
wet, dry, isp in that order, then check `wet <= dry`, then `isp <= 0`, then
append and continue; the first failure aborts. `i` is the 1-based index of
the first stage of the remaining list. -/
def validateStages : ℕ → List RawStage → Except VError (List Stage)
  | _, [] => .ok []
  | i, r :: rest =>
    match parseField r.wet with
    | .error e => .error e
    | .ok wet =>
      match parseField r.dry with
      | .error e => .error e
      | .ok dry =>
        match parseField r.isp with
        | .error e => .error e
        | .ok isp =>
          if wet ≤ dry then .error (.invalidStageWet i)
          else if isp ≤ 0 then .error (.invalidStageIsp i)
          else
            match validateStages (i + 1) rest with
            | .error e => .error e
            | .ok tail => .ok (⟨wet, dry, isp⟩ :: tail)

/-- Embeds validation of `calculate_delta_v`: run the loop, then raise
`No stages added` if `stages_data` is empty (source lines 124-125). -/
def validate (rs : List RawStage) : Except VError (List Stage) :=
  match validateStages 1 rs with
  | .error e => .error e
  | .ok sd => if sd.isEmpty then .error .emptySequenceError else .ok sd

/-- Standard gravity, `g0 = 9.80665` (source line 107), exact as a rational. -/
def g0 : ℚ := 9.80665

/-- Embeds the computation loop (source lines 130-138): for each 0-based
index `i`, `initial_mass = sum of wet over stages_data[i:]`,
`final_mass = stages_data[i][1] + sum of wet over stages_data[i+1:]`, and
`dv = stages_data[i][2] * g0 * log(initial_mass / final_mass)`. -/
noncomputable def stageDvs (sd : List Stage) : List ℝ :=
  (List.range sd.length).map (fun i =>
    let initialMass : ℚ := ((sd.drop i).map Stage.wet).sum
    let finalMass : ℚ := (sd.getD i default).dry + ((sd.drop (i + 1)).map Stage.wet).sum
    ((sd.getD i default).isp : ℝ) * (g0 : ℝ) * Real.log ((initialMass : ℝ) / (finalMass : ℝ)))

/-- Embeds the running accumulation `total_dv += dv` (source line 138):
a left fold over the per-stage values in loop order, starting from `0.0`. -/
noncomputable def totalDv (sd : List Stage) : ℝ :=
  (stageDvs sd).foldl (· + ·) 0

/-- Decimal rendering of an integer number of hundredths, as used by Python
string formatting with two decimal places once the value is rounded. -/
def centsRepr (n : ℤ) : String :=
  (if n < 0 then "-" else "") ++
    toString (n.natAbs / 100) ++ "." ++
    (if n.natAbs % 100 < 10 then "0" else "") ++ toString (n.natAbs % 100)

/-- Two-decimal formatting of a real number, idealizing Python format
`{value:.2f}`: round to the nearest hundredth and render. -/
noncomputable def fmt2 (x : ℝ) : String :=
  centsRepr (round (100 * x))

/-- In-memory state of the calculator: the stage entry rows (`self.stages`),
the stored per-stage results (`self.stage_dvs`, `none` before the attribute
is first set at source line 141), and the result label text. -/
structure AppState where
  stages : List RawStage
  stage_dvs : Option (List ℝ)
  result_text : String

/-- Embeds the `calculate_delta_v` handler (source lines 105-144): validate
and compute; on success set the label to the formatted total and store the
per-stage values; on any validation error set the label to the message
prefixed with `Error: ` and leave everything else unchanged. -/
noncomputable def calculate_delta_v (s : AppState) : AppState :=
  match validate s.stages with
  | .error e => { s with result_text := "Error: " ++ errorMessage e }
  | .ok sd =>
      { s with
        result_text := "Total Δv: " ++ fmt2 (totalDv sd) ++ " m/s",
        stage_dvs := some (stageDvs sd) }

/-- Data handed to the bar chart: one label and one height per bar
(source lines 155-162). -/
structure PlotData where
  labels : List String
  values : List ℝ

/-- Embeds the `plot_stages` handler (source lines 148-158): if `stage_dvs`
was never set (or is empty), set the label to `Calculate delta-V first!` and
do not plot; otherwise plot one bar per stored stage value plus a final
`Total` bar whose height is their sum, leaving the state unchanged. -/
noncomputable def plot_stages (s : AppState) : AppState × Option PlotData :=
  match s.stage_dvs with
  | none => ({ s with result_text := "Calculate delta-V first!" }, none)
  | some d =>
    if d.isEmpty then ({ s with result_text := "Calculate delta-V first!" }, none)
    else
      (s, some { labels := (List.range d.length).map (fun i => "Stage " ++ toString (i + 1)) ++ ["Total"],
                 values := d ++ [d.sum] })

/-- A stage row of the UI list: the frame object identity (tkinter frames
are distinct objects, modelled by a number), the displayed stage number,
and the entry fields. -/
structure UIStage where
  id : ℕ
  label : ℕ
  fields : RawStage
deriving DecidableEq

/-- Identity and field data of a row, without the displayed number. -/
def stageData (s : UIStage) : ℕ × RawStage :=
  (s.id, s.fields)

/-- Embeds the scan in `remove_stage` (source lines 88-92): remove the first
row whose frame is the given one; if none matches, leave the list as is. -/
def removeFirst (fid : ℕ) : List UIStage → List UIStage
  | [] => []
  | s :: rest => if s.id = fid then rest else s :: removeFirst fid rest

/-- Embeds the loop of `update_stage_numbers` (source lines 97-101): the row
at 0-based position `i` gets displayed number `i + 1`; `k` is the number for
the first row of the remaining list. -/
def renumberFrom (k : ℕ) : List UIStage → List UIStage
  | [] => []
  | s :: rest => { s with label := k } :: renumberFrom (k + 1) rest

/-- Embeds `update_stage_numbers`: renumber all rows to 1..N in order. -/
def renumber (l : List UIStage) : List UIStage :=
  renumberFrom 1 l

/-- Embeds `remove_stage` (source lines 86-93): remove the first matching
row, then renumber. -/
def remove_stage (fid : ℕ) (l : List UIStage) : List UIStage :=
  renumber (removeFirst fid l)

/-- Displayed numbers are the sequential positions 1..N. This is the state
`add_stage` and `remove_stage` always leave behind (source lines 56, 93). -/
abbrev wellLabelled (l : List UIStage) : Prop :=
  l.map UIStage.label = List.range' 1 l.length

/-! Spec-side definitions, written from the specification text, to be
compared with the embedded code. -/

/-- Spec reading of parsing one stage: all three fields must be numbers. -/
def specParsesTo (r : RawStage) : Option Stage :=
  match r.wet, r.dry, r.isp with
  | .good w, .good d, .good p => some ⟨w, d, p⟩
  | _, _, _ => none

/-- Text of the first unparsable field of a stage, in field order
wet, dry, isp (the order the code reads them). -/
def firstBadText (r : RawStage) : String :=
  match r.wet with
  | .bad s => s
  | .good _ =>
    match r.dry with
    | .bad s => s
    | .good _ =>
      match r.isp with
      | .bad s => s
      | .good _ => ""

/-- Spec reading of the per-stage checks, in the claimed order: parsing
first, then `wet <= dry`, then `isp <= 0`; `i` is the 1-based stage index
carried by the stage errors. Returns the first violated condition, if any. -/
def specStageError (i : ℕ) (r : RawStage) : Option VError :=
  match specParsesTo r with
  | none => some (.parseError (firstBadText r))
  | some st =>
    if st.wet ≤ st.dry then some (.invalidStageWet i)
    else if st.isp ≤ 0 then some (.invalidStageIsp i)
    else none

/-- First error over the stages in sequence order, stage indices 1-based
starting at `i`. -/
def specFirstError : ℕ → List RawStage → Option VError
  | _, [] => none
  | i, r :: rest =>
    match specStageError i r with
    | some e => some e
    | none => specFirstError (i + 1) rest

/-- Parsed stages of a fully parsable sequence. -/
def specParsedStages (rs : List RawStage) : List Stage :=
  rs.map (fun r => (specParsesTo r).getD default)

/-- Validation as the specification describes it: an empty sequence fails
with the empty-sequence error; otherwise the first violated condition, taken
over stages in order with the per-stage check order of `specStageError`,
determines the error; if no condition is violated, the validated ordered
sequence of stages is returned. -/
def specValidate (rs : List RawStage) : Except VError (List Stage) :=
  if rs.isEmpty then .error .emptySequenceError
  else
    match specFirstError 1 rs with
    | some e => .error e
    | none => .ok (specParsedStages rs)

/-- Spec formula: `initial_mass(i)` for 1-based stage `i` is the sum of wet
mass over stages `i..N`. -/
def initial_mass (sd : List Stage) (i : ℕ) : ℚ :=
  ∑ j ∈ Finset.Icc i sd.length, (sd.getD (j - 1) default).wet

/-- Spec formula: `final_mass(i)` for 1-based stage `i` is the dry mass of
stage `i` plus the sum of wet mass over stages `i+1..N`. -/
def final_mass (sd : List Stage) (i : ℕ) : ℚ :=
  (sd.getD (i - 1) default).dry + ∑ j ∈ Finset.Icc (i + 1) sd.length, (sd.getD (j - 1) default).wet

/-- Spec formula: `stage_delta_v(i) = Isp(i) * g0 * ln(initial/final)` for
1-based stage `i`. -/
noncomputable def spec_stage_delta_v (sd : List Stage) (i : ℕ) : ℝ :=
  ((sd.getD (i - 1) default).isp : ℝ) * (g0 : ℝ) *
    Real.log ((initial_mass sd i : ℝ) / (final_mass sd i : ℝ))

/-- Concrete scenario of the specification: Stage1(1000, 200, 250),
Stage2(300, 50, 300). -/
def demoStages : List Stage :=
  [⟨1000, 200, 250⟩, ⟨300, 50, 300⟩]

/-! Validation refines the specification description. -/

lemma validateStages_eq_spec (rs : List RawStage) : ∀ i,
    validateStages i rs =
      match specFirstError i rs with
      | some e => .error e
      | none => .ok (specParsedStages rs) := by
  induction rs with
  | nil => intro i; rfl
  | cons r rest ih =>
    intro i
    obtain ⟨rw, rd, rp⟩ := r
    cases rw with
    | bad s =>
      simp [validateStages, parseField, specFirstError, specStageError, specParsesTo,
        firstBadText]
    | good w =>
      cases rd with
      | bad s =>
        simp [validateStages, parseField, specFirstError, specStageError, specParsesTo,
          firstBadText]
      | good d =>
        cases rp with
        | bad s =>
          simp [validateStages, parseField, specFirstError, specStageError, specParsesTo,
            firstBadText]
        | good p =>
          by_cases hwd : w ≤ d
          · simp [validateStages, parseField, specFirstError, specStageError, specParsesTo,
              hwd]
          · by_cases hp : p ≤ 0
            · simp [validateStages, parseField, specFirstError, specStageError, specParsesTo,
                hwd, hp]
            · simp only [validateStages, parseField, specFirstError, specStageError,
                specParsesTo, hwd, hp, if_false, ite_false]
              rw [ih (i + 1)]
              cases h : specFirstError (i + 1) rest with
              | some e => simp [h]
              | none => simp [h, specParsedStages, specParsesTo]

/-- C2: validation fails with the parse error if any field is not a valid
number, with the stage error carrying the 1-based index if `wet <= dry` or
if `Isp <= 0`, and with the empty-sequence error if the sequence is empty;
stages are checked in sequence order, parsing before `wet <= dry` and
`wet <= dry` before `Isp <= 0` within each stage; with no error condition,
validation returns the validated ordered sequence: the embedded code equals
the validation function written from the specification text. -/
theorem C2_validate_refines_spec (rs : List RawStage) : validate rs = specValidate rs := by
  unfold validate specValidate
  rw [validateStages_eq_spec rs 1]
  cases rs with
  | nil => rfl
  | cons r rest =>
    cases h : specFirstError 1 (r :: rest) with
    | some e => simp [h]
    | none => simp [h, specParsedStages]

/-! Shape of the computed results. -/

lemma foldl_add_eq_add_sum (l : List ℝ) : ∀ a : ℝ, l.foldl (· + ·) a = a + l.sum := by
  induction l with
  | nil => intro a; simp
  | cons x xs ih =>
    intro a
    rw [List.foldl_cons, ih (a + x), List.sum_cons]
    ring

/-- C3: on a non-empty sequence of stages with `wet > dry` and `Isp > 0`,
the computation returns exactly one delta-v per stage, in stage order, and
the accumulated total equals the sum of the per-stage values. -/
theorem C3_count_and_total (sd : List Stage) (hne : sd ≠ [])
    (hok : ∀ s ∈ sd, s.dry < s.wet ∧ 0 < s.isp) :
    (stageDvs sd).length = sd.length ∧ totalDv sd = (stageDvs sd).sum := by
  refine ⟨by simp [stageDvs], ?_⟩
  rw [totalDv, foldl_add_eq_add_sum, zero_add]

theorem C3_witness :
    (stageDvs demoStages).length = demoStages.length ∧
      totalDv demoStages = (stageDvs demoStages).sum :=
  C3_count_and_total demoStages (by decide) (by decide)

/-- C4: for a single stage with `wet > dry` and `Isp > 0`, the computed
delta-v is `Isp * 9.80665 * ln(wet / dry)`, the classical single-stage
rocket equation. -/
theorem C4_single_stage (w d p : ℚ) (h1 : d < w) (h2 : 0 < p) :
    stageDvs [⟨w, d, p⟩] = [(p : ℝ) * 9.80665 * Real.log ((w : ℝ) / (d : ℝ))] := by
  have hr : List.range 1 = [0] := rfl
  simp [stageDvs, g0, hr]

theorem C4_witness :
    stageDvs [⟨2, 1, 3⟩] = [((3 : ℚ) : ℝ) * 9.80665 * Real.log (((2 : ℚ) : ℝ) / ((1 : ℚ) : ℝ))] :=
  C4_single_stage 2 1 3 (by norm_num) (by norm_num)

/-! Validation accepts non-positive masses. -/

lemma validateStages_all_good (sd : List Stage) : ∀ i,
    (∀ s ∈ sd, s.dry < s.wet ∧ 0 < s.isp) →
    validateStages i (sd.map (fun s => ⟨.good s.wet, .good s.dry, .good s.isp⟩)) = .ok sd := by
  induction sd with
  | nil => intro i _; rfl
  | cons s rest ih =>
    intro i hok
    have hs := hok s (by simp)
    have hr : ∀ t ∈ rest, t.dry < t.wet ∧ 0 < t.isp := fun t ht => hok t (by simp [ht])
    simp [validateStages, parseField, not_le.mpr hs.1, not_le.mpr hs.2, ih (i + 1) hr]

/-- C10: validation has no positivity check on the masses: any stage
sequence whose fields parse with `wet > dry` and `Isp > 0` is accepted,
without any requirement that `dry` (or `wet`) be positive, and the
computation then produces a value for every stage. -/
theorem C10_no_positivity_check (sd : List Stage) (hne : sd ≠ [])
    (hok : ∀ s ∈ sd, s.dry < s.wet ∧ 0 < s.isp) :
    validate (sd.map (fun s => ⟨.good s.wet, .good s.dry, .good s.isp⟩)) = .ok sd ∧
      (stageDvs sd).length = sd.length := by
  refine ⟨?_, by simp [stageDvs]⟩
  unfold validate
  rw [validateStages_all_good sd 1 hok]
  simp [hne]

theorem C10_witness :
    validate ([(⟨1, -2, 1⟩ : Stage)].map (fun s => (⟨.good s.wet, .good s.dry, .good s.isp⟩ : RawStage))) =
        .ok [⟨1, -2, 1⟩] ∧
      (stageDvs [⟨1, -2, 1⟩]).length = [(⟨1, -2, 1⟩ : Stage)].length :=
  C10_no_positivity_check [⟨1, -2, 1⟩] (by decide) (by decide)

/-! Removal and renumbering of UI stage rows. -/

lemma renumberFrom_map_label (l : List UIStage) : ∀ k,
    (renumberFrom k l).map UIStage.label = List.range' k l.length := by
  induction l with
  | nil => intro k; rfl
  | cons s rest ih =>
    intro k
    simp [renumberFrom, List.range', ih (k + 1)]

lemma renumberFrom_map_data (l : List UIStage) : ∀ k,
    (renumberFrom k l).map stageData = l.map stageData := by
  induction l with
  | nil => intro k; rfl
  | cons s rest ih =>
    intro k
    simp [renumberFrom, stageData, ih (k + 1)]

lemma renumberFrom_length (l : List UIStage) : ∀ k,
    (renumberFrom k l).length = l.length := by
  induction l with
  | nil => intro k; rfl
  | cons s rest ih => intro k; simp [renumberFrom, ih (k + 1)]

lemma renumberFrom_of_labelled (l : List UIStage) : ∀ k,
    l.map UIStage.label = List.range' k l.length → renumberFrom k l = l := by
  induction l with
  | nil => intro k _; rfl
  | cons s rest ih =>
    intro k h
    simp only [List.map_cons, List.length_cons, List.range'] at h
    obtain ⟨h1, h2⟩ := List.cons.inj h
    rw [renumberFrom, ih (k + 1) h2, ← h1]

lemma removeFirst_not_found (fid : ℕ) (l : List UIStage)
    (h : fid ∉ l.map UIStage.id) : removeFirst fid l = l := by
  induction l with
  | nil => rfl
  | cons s rest ih =>
    simp only [List.map_cons, List.mem_cons, not_or] at h
    rw [removeFirst, if_neg (fun hs => h.1 hs.symm), ih h.2]

lemma removeFirst_found (fid : ℕ) (l : List UIStage) (h : fid ∈ l.map UIStage.id) :
    (removeFirst fid l).length = l.length - 1 ∧
      (removeFirst fid l).map stageData = (l.map stageData).eraseP (fun p => p.1 == fid) := by
  induction l with
  | nil => simp at h
  | cons s rest ih =>
    by_cases hs : s.id = fid
    · refine ⟨?_, ?_⟩
      · rw [removeFirst, if_pos hs]; simp
      · rw [removeFirst, if_pos hs, List.map_cons, List.eraseP_cons_of_pos]
        simp [stageData, hs]
    · simp only [List.map_cons, List.mem_cons, not_or] at h
      have hmem : fid ∈ rest.map UIStage.id := by
        rcases h with h | h
        · exact absurd h.symm hs
        · exact h
      have hne : rest ≠ [] := by
        intro hnil; rw [hnil] at hmem; simp at hmem
      have hlen : 1 ≤ rest.length := by
        cases rest with
        | nil => exact absurd rfl hne
        | cons a b => simp
      obtain ⟨ih1, ih2⟩ := ih hmem
      refine ⟨?_, ?_⟩
      · rw [removeFirst, if_neg hs]
        simp only [List.length_cons, ih1]
        omega
      · rw [removeFirst, if_neg hs, List.map_cons, List.map_cons,
          List.eraseP_cons_of_neg, ih2]
        simp [stageData, hs]

/-- C5: removing by an identity not present leaves the sequence unchanged
(given the displayed numbers are the sequential 1..N that the interface
maintains); removing a present identity removes exactly the first matching
stage, keeps the remaining stages in their original relative order, and
renumbers the displayed positions to sequential 1..N-1. -/
theorem C5_remove_stage (fid : ℕ) (l : List UIStage) :
    (fid ∉ l.map UIStage.id →
      (remove_stage fid l).map stageData = l.map stageData ∧
        (wellLabelled l → remove_stage fid l = l)) ∧
    (fid ∈ l.map UIStage.id →
      (remove_stage fid l).length = l.length - 1 ∧
        (remove_stage fid l).map stageData = (l.map stageData).eraseP (fun p => p.1 == fid) ∧
        (remove_stage fid l).map UIStage.label = List.range' 1 (l.length - 1)) := by
  constructor
  · intro hout
    refine ⟨?_, ?_⟩
    · rw [remove_stage, removeFirst_not_found fid l hout, renumber, renumberFrom_map_data]
    · intro hw
      rw [remove_stage, removeFirst_not_found fid l hout, renumber,
        renumberFrom_of_labelled l 1 hw]
  · intro hin
    obtain ⟨h1, h2⟩ := removeFirst_found fid l hin
    refine ⟨?_, ?_, ?_⟩
    · rw [remove_stage, renumber, renumberFrom_length, h1]
    · rw [remove_stage, renumber, renumberFrom_map_data, h2]
    · rw [remove_stage, renumber, renumberFrom_map_label, h1]

/-- Two rows for exercising `remove_stage`. -/
def demoRows : List UIStage :=
  [⟨10, 1, ⟨.good 1000, .good 200, .good 250⟩⟩, ⟨20, 2, ⟨.good 300, .good 50, .good 300⟩⟩]

theorem C5_witness :
    (remove_stage 10 demoRows).length = demoRows.length - 1 ∧
      (remove_stage 10 demoRows).map stageData =
        (demoRows.map stageData).eraseP (fun p => p.1 == 10) ∧
      (remove_stage 10 demoRows).map UIStage.label = List.range' 1 (demoRows.length - 1) :=
  (C5_remove_stage 10 demoRows).2 (by decide)

/-! The Calculate handler as a state transformer. -/

/-- C6: the computation is pure over the stage data: it never changes the
stage sequence, two runs over the same stage data produce the same displayed
result, successful runs over the same stage data store the same per-stage
values, and running the handler twice is the same as running it once. -/
theorem C6_compute_pure (s t : AppState) (h : s.stages = t.stages) :
    (calculate_delta_v s).stages = s.stages ∧
    (calculate_delta_v s).result_text = (calculate_delta_v t).result_text ∧
    (∀ sd, validate s.stages = .ok sd →
      (calculate_delta_v s).stage_dvs = (calculate_delta_v t).stage_dvs) ∧
    calculate_delta_v (calculate_delta_v s) = calculate_delta_v s := by
  have ht : validate t.stages = validate s.stages := by rw [h]
  cases hv : validate s.stages with
  | error e =>
    refine ⟨?_, ?_, ?_, ?_⟩ <;>
      simp [calculate_delta_v, hv, ht]
  | ok sd =>
    refine ⟨?_, ?_, ?_, ?_⟩ <;>
      simp [calculate_delta_v, hv, ht]

theorem C6_witness :
    (calculate_delta_v ⟨[⟨.good 1000, .good 200, .good 250⟩], none, ""⟩).stages =
        (⟨[⟨.good 1000, .good 200, .good 250⟩], none, ""⟩ : AppState).stages ∧
      (calculate_delta_v ⟨[⟨.good 1000, .good 200, .good 250⟩], none, ""⟩).result_text =
        (calculate_delta_v ⟨[⟨.good 1000, .good 200, .good 250⟩], none, ""⟩).result_text ∧
      (∀ sd, validate (⟨[⟨.good 1000, .good 200, .good 250⟩], none, ""⟩ : AppState).stages = .ok sd →
        (calculate_delta_v ⟨[⟨.good 1000, .good 200, .good 250⟩], none, ""⟩).stage_dvs =
          (calculate_delta_v ⟨[⟨.good 1000, .good 200, .good 250⟩], none, ""⟩).stage_dvs) ∧
      calculate_delta_v (calculate_delta_v ⟨[⟨.good 1000, .good 200, .good 250⟩], none, ""⟩) =
        calculate_delta_v ⟨[⟨.good 1000, .good 200, .good 250⟩], none, ""⟩ :=
  C6_compute_pure ⟨[⟨.good 1000, .good 200, .good 250⟩], none, ""⟩
    ⟨[⟨.good 1000, .good 200, .good 250⟩], none, ""⟩ rfl

/-- State with one unparsable field, used as the concrete failing input. -/
def errDemo : AppState :=
  ⟨[⟨.bad "abc", .good 1, .good 2⟩], none, ""⟩

/-- C7 counterexample: on a Calculate action that fails validation, the
result text is not the error message itself: the code prefixes it with
`Error: `, so the claimed display of the message verbatim as the result
text is false at this input. -/
theorem C7_counterexample :
    (calculate_delta_v errDemo).result_text =
        "Error: " ++ errorMessage (.parseError "abc") ∧
      (calculate_delta_v errDemo).result_text ≠ errorMessage (.parseError "abc") := by
  constructor
  · rfl
  · decide

/-- C7 as amended: a validation failure is caught at the calculation
boundary and converted to a result text consisting of the fixed prefix
`Error: ` followed by the error message verbatim; on success the result
text is the total delta-v formatted to 2 decimal places inside the fixed
label, `Total Δv: <value> m/s`. -/
theorem C7_amended (s : AppState) :
    (∀ e, validate s.stages = .error e →
      (calculate_delta_v s).result_text = "Error: " ++ errorMessage e) ∧
    (∀ sd, validate s.stages = .ok sd →
      (calculate_delta_v s).result_text = "Total Δv: " ++ fmt2 (totalDv sd) ++ " m/s") := by
  constructor
  · intro e he; simp [calculate_delta_v, he]
  · intro sd hsd; simp [calculate_delta_v, hsd]

theorem C7_witness :
    (calculate_delta_v errDemo).result_text =
      "Error: " ++ errorMessage (VError.parseError "abc") :=
  (C7_amended errDemo).1 (VError.parseError "abc") rfl

/-! The Plot handler and stale results. -/

/-- C9: when a Calculate action fails validation, the stored per-stage
results are left exactly as they were; a following Plot action then renders
those previous (stale) values, with the extra Total bar equal to their sum;
only a state in which no computation has ever succeeded (no stored results)
makes Plot ask the user to calculate first. -/
theorem C9_stale_results (s : AppState) (e : VError) (h : validate s.stages = .error e) :
    (calculate_delta_v s).stage_dvs = s.stage_dvs ∧
    (∀ d, s.stage_dvs = some d → d ≠ [] →
      plot_stages (calculate_delta_v s) =
        (calculate_delta_v s,
          some ⟨(List.range d.length).map (fun i => "Stage " ++ toString (i + 1)) ++ ["Total"],
            d ++ [d.sum]⟩)) ∧
    (s.stage_dvs = none →
      (plot_stages (calculate_delta_v s)).1.result_text = "Calculate delta-V first!" ∧
        (plot_stages (calculate_delta_v s)).2 = none) := by
  have h1 : calculate_delta_v s = { s with result_text := "Error: " ++ errorMessage e } := by
    simp [calculate_delta_v, h]
  refine ⟨by rw [h1], ?_, ?_⟩
  · intro d hd hne
    rw [h1]
    simp [plot_stages, hd, hne]
  · intro hnone
    rw [h1]
    simp [plot_stages, hnone]

/-- State holding results of an earlier successful computation, whose
current entries no longer validate. -/
def staleDemo : AppState :=
  ⟨[⟨.bad "abc", .good 1, .good 2⟩], some [(1 : ℝ)], "Total Δv: 1.00 m/s"⟩

theorem C9_witness :
    (calculate_delta_v staleDemo).stage_dvs = staleDemo.stage_dvs :=
  (C9_stale_results staleDemo (VError.parseError "abc") rfl).1

/-! The per-stage formula of the computation loop. -/

lemma drop_map_wet_sum (sd : List Stage) : ∀ k,
    ((sd.drop k).map Stage.wet).sum = ∑ j ∈ Finset.Ico k sd.length, (sd.getD j default).wet := by
  induction sd with
  | nil => intro k; simp
  | cons s rest ih =>
    intro k
    cases k with
    | zero =>
      simp only [List.drop_zero, List.map_cons, List.sum_cons, List.length_cons]
      rw [← Finset.range_eq_Ico, Finset.sum_range_succ']
      simp only [List.getD_cons_succ, List.getD_cons_zero]
      have h0 := ih 0
      rw [List.drop_zero, ← Finset.range_eq_Ico] at h0
      rw [← h0]
      simp [add_comm]
    | succ k =>
      simp only [List.drop_succ_cons, List.length_cons]
      rw [ih k, Finset.sum_Ico_eq_sum_range, Finset.sum_Ico_eq_sum_range]
      have hn : rest.length + 1 - (k + 1) = rest.length - k := by omega
      rw [hn]
      refine Finset.sum_congr rfl ?_
      intro i _
      have hidx : k + 1 + i = (k + i) + 1 := by omega
      rw [hidx, List.getD_cons_succ]

lemma Icc_wet_sum (sd : List Stage) (i : ℕ) (h : 1 ≤ i) :
    ∑ j ∈ Finset.Icc i sd.length, (sd.getD (j - 1) default).wet
      = ∑ j ∈ Finset.Ico (i - 1) sd.length, (sd.getD j default).wet := by
  rw [← Nat.Ico_succ_right, Finset.sum_Ico_eq_sum_range, Finset.sum_Ico_eq_sum_range]
  have hn : sd.length + 1 - i = sd.length - (i - 1) := by omega
  rw [hn]
  refine Finset.sum_congr rfl ?_
  intro t _
  have hidx : i + t - 1 = (i - 1) + t := by omega
  rw [hidx]

lemma initial_mass_eq (sd : List Stage) (i : ℕ) (h : 1 ≤ i) :
    ((sd.drop (i - 1)).map Stage.wet).sum = initial_mass sd i := by
  rw [initial_mass, Icc_wet_sum sd i h, drop_map_wet_sum]

lemma final_mass_eq (sd : List Stage) (i : ℕ) (h : 1 ≤ i) :
    (sd.getD (i - 1) default).dry + ((sd.drop i).map Stage.wet).sum = final_mass sd i := by
  rw [final_mass]
  congr 1
  rw [Icc_wet_sum sd (i + 1) (by omega), drop_map_wet_sum]
  simp

/-- C1: for every stage position `i` (1-based) of a stage sequence, the
value the computation loop produces for that stage equals
`Isp(i) * g0 * ln(initial_mass(i) / final_mass(i))`, with `initial_mass(i)`
the sum of wet mass over stages `i..N` and `final_mass(i)` the dry mass of
stage `i` plus the sum of wet mass over stages `i+1..N`. -/
theorem C1_stage_formula (sd : List Stage) (i : ℕ) (h1 : 1 ≤ i) (h2 : i ≤ sd.length) :
    (stageDvs sd).getD (i - 1) 0 = spec_stage_delta_v sd i := by
  have hlt : i - 1 < sd.length := by omega
  rw [stageDvs, spec_stage_delta_v, List.getD_eq_getElem?_getD, List.getElem?_map,
    List.getElem?_range hlt]
  simp only [Option.map_some', Option.getD_some]
  rw [← initial_mass_eq sd i h1, ← final_mass_eq sd i h1]
  have hidx : i - 1 + 1 = i := by omega
  rw [hidx]

theorem C1_witness : (stageDvs demoStages).getD (2 - 1) 0 = spec_stage_delta_v demoStages 2 :=
  C1_stage_formula demoStages 2 (by norm_num) (by norm_num [demoStages])

/-! Numeric bounds for the concrete two-stage scenario. -/

lemma log_13_10_bounds : (0.262363 : ℝ) < Real.log (13 / 10) ∧ Real.log (13 / 10) < 0.262366 := by
  have hx0 : |(3 / 13 : ℝ)| = 3 / 13 := by rw [abs_of_pos] ; norm_num
  have hx : |(3 / 13 : ℝ)| < 1 := by rw [hx0] ; norm_num
  have h := Real.abs_log_sub_add_sum_range_le hx 10
  rw [hx0, show (1 : ℝ) - 3 / 13 = 10 / 13 by norm_num,
    show Real.log ((10 : ℝ) / 13) = -Real.log (13 / 10) by
      rw [show (10 / 13 : ℝ) = (13 / 10)⁻¹ by norm_num, Real.log_inv],
    abs_le] at h
  obtain ⟨hlo, hhi⟩ := h
  simp only [Finset.sum_range_succ, Finset.sum_range_zero] at hlo hhi
  norm_num at hlo hhi
  constructor <;> linarith

lemma log_3_2_bounds : (0.405464 : ℝ) < Real.log (3 / 2) ∧ Real.log (3 / 2) < 0.405467 := by
  have hx0 : |(1 / 3 : ℝ)| = 1 / 3 := by rw [abs_of_pos] ; norm_num
  have hx : |(1 / 3 : ℝ)| < 1 := by rw [hx0] ; norm_num
  have h := Real.abs_log_sub_add_sum_range_le hx 13
  rw [hx0, show (1 : ℝ) - 1 / 3 = 2 / 3 by norm_num,
    show Real.log ((2 : ℝ) / 3) = -Real.log (3 / 2) by
      rw [show (2 / 3 : ℝ) = (3 / 2)⁻¹ by norm_num, Real.log_inv],
    abs_le] at h
  obtain ⟨hlo, hhi⟩ := h
  simp only [Finset.sum_range_succ, Finset.sum_range_zero] at hlo hhi
  norm_num at hlo hhi
  constructor <;> linarith

lemma log_13_5_bounds : (0.955510 : ℝ) < Real.log (13 / 5) ∧ Real.log (13 / 5) < 0.955514 := by
  have h : Real.log ((13 : ℝ) / 5) = Real.log 2 + Real.log (13 / 10) := by
    rw [← Real.log_mul (by norm_num) (by norm_num)]
    norm_num
  have h1 := Real.log_two_gt_d9
  have h2 := Real.log_two_lt_d9
  have h3 := log_13_10_bounds
  constructor <;> rw [h] <;> linarith [h3.1, h3.2]

lemma log_6_bounds : (1.791758 : ℝ) < Real.log 6 ∧ Real.log 6 < 1.791762 := by
  have h : Real.log (6 : ℝ) = 2 * Real.log 2 + Real.log (3 / 2) := by
    rw [show (6 : ℝ) = 2 * 2 * (3 / 2) by norm_num,
      Real.log_mul (by norm_num) (by norm_num),
      Real.log_mul (by norm_num) (by norm_num)]
    ring
  have h1 := Real.log_two_gt_d9
  have h2 := Real.log_two_lt_d9
  have h3 := log_3_2_bounds
  constructor <;> rw [h] <;> linarith [h3.1, h3.2]

lemma demo_dvs_eq :
    stageDvs demoStages = [2451.6625 * Real.log ((13 : ℝ) / 5), 2941.995 * Real.log 6] := by
  have hr : List.range 2 = [0, 1] := rfl
  simp [stageDvs, demoStages, g0, hr]
  constructor
  · rw [show ((1000 : ℝ) + 300) / (200 + 300) = 13 / 5 by norm_num]
    norm_num
  · rw [show ((300 : ℝ)) / 50 = 6 by norm_num]
    norm_num

lemma demo_initial1 : initial_mass demoStages 1 = 1300 := by
  rw [← initial_mass_eq demoStages 1 (by norm_num)]
  simp [demoStages]
  norm_num

lemma demo_final1 : final_mass demoStages 1 = 500 := by
  rw [← final_mass_eq demoStages 1 (by norm_num)]
  simp [demoStages]
  norm_num

lemma demo_initial2 : initial_mass demoStages 2 = 300 := by
  rw [← initial_mass_eq demoStages 2 (by norm_num)]
  simp [demoStages]

lemma demo_final2 : final_mass demoStages 2 = 50 := by
  rw [← final_mass_eq demoStages 2 (by norm_num)]
  simp [demoStages]

lemma demo_dv1_eq : (stageDvs demoStages).getD 0 0 = 2451.6625 * Real.log ((13 : ℝ) / 5) := by
  rw [demo_dvs_eq] ; rfl

lemma demo_dv2_eq : (stageDvs demoStages).getD 1 0 = 2941.995 * Real.log 6 := by
  rw [demo_dvs_eq] ; rfl

lemma demo_total_eq :
    totalDv demoStages = 2451.6625 * Real.log ((13 : ℝ) / 5) + 2941.995 * Real.log 6 := by
  rw [totalDv, demo_dvs_eq, foldl_add_eq_add_sum]
  simp

/-- C8 counterexample: at the concrete input Stage1(1000, 200, 250),
Stage2(300, 50, 300), the computed values differ from the claimed
approximations by more than the stated precision allows: the first stage
delta-v is more than 2 m/s away from 2339.96, the second more than 0.5 m/s
away from 5271.87, and the total more than 2 m/s away from 7611.8. -/
theorem C8_counterexample :
    2 < |(stageDvs demoStages).getD 0 0 - 2339.96| ∧
      0.5 < |(stageDvs demoStages).getD 1 0 - 5271.87| ∧
      2 < |totalDv demoStages - 7611.8| := by
  have h1 := log_13_5_bounds
  have h2 := log_6_bounds
  rw [demo_dv1_eq, demo_dv2_eq, demo_total_eq]
  refine ⟨?_, ?_, ?_⟩
  · have ha := le_abs_self (2451.6625 * Real.log ((13 : ℝ) / 5) - 2339.96)
    linarith [h1.1]
  · have ha := neg_abs_le (2941.995 * Real.log 6 - 5271.87)
    linarith [h2.2]
  · have ha := le_abs_self
      (2451.6625 * Real.log ((13 : ℝ) / 5) + 2941.995 * Real.log 6 - 7611.8)
    linarith [h1.1, h2.1]

/-- C8 as amended: for the concrete input Stage1(1000, 200, 250),
Stage2(300, 50, 300), the computation yields initial_mass(1) = 1300,
final_mass(1) = 500, initial_mass(2) = 300, final_mass(2) = 50, and
dv1 = 250 * 9.80665 * ln(1300/500) which is approximately 2342.59 m/s,
dv2 = 300 * 9.80665 * ln(300/50) which is approximately 5271.35 m/s, and a
total of approximately 7613.94 m/s. -/
theorem C8_amended :
    initial_mass demoStages 1 = 1300 ∧ final_mass demoStages 1 = 500 ∧
      initial_mass demoStages 2 = 300 ∧ final_mass demoStages 2 = 50 ∧
      2342.58 < (stageDvs demoStages).getD 0 0 ∧ (stageDvs demoStages).getD 0 0 < 2342.60 ∧
      5271.34 < (stageDvs demoStages).getD 1 0 ∧ (stageDvs demoStages).getD 1 0 < 5271.36 ∧
      7613.93 < totalDv demoStages ∧ totalDv demoStages < 7613.96 := by
  have h1 := log_13_5_bounds
  have h2 := log_6_bounds
  rw [demo_dv1_eq, demo_dv2_eq, demo_total_eq]
  refine ⟨demo_initial1, demo_final1, demo_initial2, demo_final2, ?_, ?_, ?_, ?_, ?_, ?_⟩ <;>
    linarith [h1.1, h1.2, h2.1, h2.2]

end MSDV
